import Mathlib

/-!
Verification of the session-authentication and role-authorization flow of the
omniwhey-homework-fixer repository.

The frontend (client session holder, route gates, admin pagination, upload
form) is embedded directly from the TypeScript sources under
src/frontend and src/unnamed.  The backend token issuer/validator is not
present in the repository sources (only its README and test descriptions
are), so it is modelled from the specification text; every such definition
carries a doc comment starting with "Modelled from the spec:".
-/

namespace OmniWhey

/-! ## Backend data model (modelled from the spec, section 3 DATA MODEL) -/

/-- Modelled from the spec: a User record of the Credential Store —
identity (unique email), hashed password, boolean is_active, boolean
is_admin.  (Backend source is absent from the repository; only the
frontend and the backend README are present.) -/
structure User where
  id : Nat
  email : String
  hashed_password : String
  is_active : Bool
  is_admin : Bool
deriving DecidableEq, Repr

/-- Modelled from the spec: a database-backed Token row — the opaque token
string, its owner, an expiration time, and a revoked flag. -/
structure TokenRecord where
  token : String
  userId : Nat
  expiry : Nat
  revoked : Bool
deriving DecidableEq, Repr

/-- Modelled from the spec: the single relational store holding the durable
user and token records. -/
structure Store where
  users : List User
  tokens : List TokenRecord
deriving DecidableEq, Repr

/-- The error taxonomy of the spec, section 7. -/
inductive AuthError where
  | ExpiredToken
  | RevokedToken
  | UnknownToken
  | InactiveUser
  | InvalidCredentials
  | Unauthorized
  | Forbidden
deriving DecidableEq, Repr

def findToken (s : Store) (t : String) : Option TokenRecord :=
  s.tokens.find? (fun r => r.token = t)

def findUserById (s : Store) (uid : Nat) : Option User :=
  s.users.find? (fun u => u.id = uid)

/-- Modelled from the spec: validate(token) -> User | AuthError.  Fails with
UnknownToken if not found/malformed, ExpiredToken if past expiry,
RevokedToken if explicitly invalidated, InactiveUser if the owning user's
active flag is false; on success returns the resolved User. -/
def validate (s : Store) (t : String) (now : Nat) : Except AuthError User :=
  match findToken s t with
  | none => .error .UnknownToken
  | some r =>
    if r.expiry ≤ now then .error .ExpiredToken
    else if r.revoked then .error .RevokedToken
    else
      match findUserById s r.userId with
      | none => .error .UnknownToken
      | some u => if u.is_active then .ok u else .error .InactiveUser

/-- Modelled from the spec: issue(user) -> Token.  Generates a token bound to
the user's identity with a configurable expiration window and persists a row
recording the token, its owner, and expiry.  The fresh token string is an
explicit argument (the generator is opaque in the spec). -/
def issue (s : Store) (u : User) (now window : Nat) (tok : String) : Store × String :=
  ({ s with tokens := s.tokens ++ [⟨tok, u.id, now + window, false⟩] }, tok)

/-- The per-row update of revoke: set the revoked flag on the matching row. -/
def revokeOne (t : String) (r : TokenRecord) : TokenRecord :=
  if r.token = t then { r with revoked := true } else r

/-- Modelled from the spec: revoke(token) marks a token unusable; revoking an
already-revoked or unknown token is a no-op, not an error. -/
def revoke (s : Store) (t : String) : Store :=
  { s with tokens := s.tokens.map (revokeOne t) }

/-- Modelled from the spec: login converts a verified (email, password) pair
into a Token via issue; fails with InvalidCredentials otherwise.  Password
hashing is abstract, so the hash function is a parameter. -/
def loginServer (hash : String → String) (s : Store) (email pw : String)
    (now window : Nat) (tok : String) : Except AuthError (Store × String) :=
  match s.users.find? (fun u => u.email = email && u.hashed_password = hash pw) with
  | none => .error .InvalidCredentials
  | some u => .ok (issue s u now window tok)

/-- The per-row update of deactivate: clear is_active on the matching user. -/
def deacOne (uid : Nat) (u : User) : User :=
  if u.id = uid then { u with is_active := false } else u

/-- Modelled from the spec: admin action deactivating a user
(is_active := false). -/
def deactivate (s : Store) (uid : Nat) : Store :=
  { s with users := s.users.map (deacOne uid) }

/-- Modelled from the spec: requireAuth(token) delegates to validate(); on
failure signals Unauthorized. -/
def requireAuth (s : Store) (t : String) (now : Nat) : Except AuthError User :=
  match validate s t now with
  | .ok u => .ok u
  | .error _ => .error .Unauthorized

/-- Modelled from the spec: requireAdmin(token) calls requireAuth, then checks
user.is_admin; fails with Forbidden if false. -/
def requireAdmin (s : Store) (t : String) (now : Nat) : Except AuthError User :=
  match requireAuth s t now with
  | .ok u => if u.is_admin then .ok u else .error .Forbidden
  | .error e => .error e

example :
    validate ⟨[⟨1, "a@x.se", "h", true, false⟩], [⟨"t1", 1, 100, false⟩]⟩ "t1" 50 =
      .ok ⟨1, "a@x.se", "h", true, false⟩ := rfl

example :
    validate ⟨[⟨1, "a@x.se", "h", true, false⟩], [⟨"t1", 1, 100, false⟩]⟩ "t1" 100 =
      .error .ExpiredToken := rfl

example :
    validate (revoke ⟨[⟨1, "a@x.se", "h", true, false⟩], [⟨"t1", 1, 100, false⟩]⟩ "t1") "t1" 50 =
      .error .RevokedToken := rfl

example :
    validate (deactivate ⟨[⟨1, "a@x.se", "h", true, false⟩], [⟨"t1", 1, 100, false⟩]⟩ 1) "t1" 50 =
      .error .InactiveUser := rfl

/-! ## Client session holder

Embedded from src/frontend/src/lib/store/authStore.ts (zustand store) and the
axios interceptors of the api module (src/unnamed/part_005).  The browser
localStorage entry auth_token is part of the client state (field localToken).
The outcomes of the asynchronous API calls are explicit arguments: some x for
a fulfilled request, none for a rejected one. -/

structure ClientState where
  token : Option String
  user : Option User
  isAuthenticated : Bool
  isLoading : Bool
  localToken : Option String
deriving DecidableEq, Repr

/-- authStore.ts setUser: sets the user field and isAuthenticated to
the truthiness of the user. -/
def setUser (cs : ClientState) (u : Option User) : ClientState :=
  { cs with user := u, isAuthenticated := u.isSome }

/-- authStore.ts setToken: sets the token field, then mirrors it into
localStorage (setItem when non-null, removeItem when null). -/
def setToken (cs : ClientState) (t : Option String) : ClientState :=
  { cs with token := t, localToken := t }

/-- authStore.ts setIsLoading. -/
def setIsLoading (cs : ClientState) (b : Bool) : ClientState :=
  { cs with isLoading := b }

/-- The try/finally body of authStore.ts checkAuth once a token is present:
setIsLoading(true); getCurrentUser — on success setUser(data), on failure
setToken(null) and setUser(null); finally setIsLoading(false). -/
def checkAuthBody (cs : ClientState) (fetchResult : Option User) : ClientState :=
  let cs1 := setIsLoading cs true
  match fetchResult with
  | some u => setIsLoading (setUser cs1 (some u)) false
  | none => setIsLoading (setUser (setToken cs1 none) none) false

/-- authStore.ts checkAuth: if the store holds no token, fall back to the
localStorage copy, or stop (setIsLoading(false)) when neither exists. -/
def checkAuth (cs : ClientState) (fetchResult : Option User) : ClientState :=
  match cs.token with
  | some _ => checkAuthBody cs fetchResult
  | none =>
    match cs.localToken with
    | some lt => checkAuthBody (setToken cs (some lt)) fetchResult
    | none => setIsLoading cs false

/-- authStore.ts login: on a fulfilled token request, setToken(access_token),
then await checkAuth() (whose internal catch never rethrows), and return
true; on a rejected token request, return false leaving the state alone. -/
def storeLogin (cs : ClientState) (loginResult : Option String)
    (fetchResult : Option User) : ClientState × Bool :=
  match loginResult with
  | none => (cs, false)
  | some accessTok => (checkAuth (setToken cs (some accessTok)) fetchResult, true)

/-- authStore.ts logout: setToken(null); setUser(null).  The body contains no
API request. -/
def storeLogout (cs : ClientState) : ClientState :=
  setUser (setToken cs none) none

/-- The whole system seen by a logout call: the server store is untouched
because the logout body of authStore.ts (and of the useAuth provider) issues
no request to the backend. -/
def systemLogout (p : Store × ClientState) : Store × ClientState :=
  (p.1, storeLogout p.2)

/-- The axios request interceptor (src/unnamed/part_005): read auth_token
from localStorage and, when present, set the Authorization header to
"Bearer " followed by the token. -/
def attachAuthHeader (localToken : Option String) : Option String :=
  match localToken with
  | some t => some ("Bearer " ++ t)
  | none => none

/-- An axios rejection: either an HTTP response with a status code, or no
response at all (network failure). -/
inductive AxiosError where
  | withResponse (status : Nat)
  | noResponse
deriving DecidableEq, Repr

/-- The axios response-error interceptor (src/unnamed/part_005): when
error.response exists and its status is 401, remove auth_token from
localStorage and redirect to /login.  Returns the localStorage token after
the handler and whether the redirect happened. -/
def responseErrorInterceptor (localToken : Option String) (e : AxiosError) :
    Option String × Bool :=
  match e with
  | .withResponse status => if status == 401 then (none, true) else (localToken, false)
  | .noResponse => (localToken, false)

/-! ## Route gates

Embedded from src/frontend/src/App.tsx (ProtectedRoute and AdminRoute, which
read localStorage directly) and src/frontend/src/components/ProtectedRoute.tsx
(which reads the useAuth context). -/

inductive RouteResult where
  | loading
  | redirectLogin
  | redirectDashboard
  | render
deriving DecidableEq, Repr

/-- App.tsx AdminRoute: isAuthenticated when localStorage auth_token is not
null; isAdmin when localStorage is_admin equals the string true; redirect to
/login when unauthenticated, to /dashboard when not admin. -/
def adminRoute (authToken isAdminVal : Option String) : RouteResult :=
  let isAuthenticated := authToken.isSome
  let isAdmin := isAdminVal == some "true"
  if !isAuthenticated then .redirectLogin
  else if !isAdmin then .redirectDashboard
  else .render

/-- components/ProtectedRoute.tsx: loading screen while isLoading; redirect
to /login when not authenticated; with the admin requirement, redirect to
/dashboard unless user?.is_admin; else render the element. -/
def protectedRouteComponent (isLoading isAuthenticated : Bool) (user : Option User)
    (reqAdmin : Bool) : RouteResult :=
  if isLoading then .loading
  else if !isAuthenticated then .redirectLogin
  else if reqAdmin && !(match user with | some u => u.is_admin | none => false) then
    .redirectDashboard
  else .render

/-! ## Admin panel pagination

Embedded from renderPagination in src/frontend/src/pages/AdminPanel.tsx.
Page indices are Nat; the JavaScript subtractions that can go negative are
always fed into Math.max(1, _), which coincides with truncated Nat
subtraction followed by max 1. -/

inductive PageItem where
  | prev
  | next
  | page (n : Nat) (isActive : Bool)
  | ellipsis
deriving DecidableEq, Repr

def maxVisiblePages : Nat := 5

/-- let startPage = Math.max(1, currentPage - 2). -/
def startPageRaw (currentPage : Nat) : Nat := max 1 (currentPage - 2)

/-- let endPage = Math.min(totalPages, startPage + maxVisiblePages - 1).
The source never recomputes endPage after adjusting startPage. -/
def endPageOf (currentPage totalPages : Nat) : Nat :=
  min totalPages (startPageRaw currentPage + maxVisiblePages - 1)

/-- The adjusted startPage: if endPage - startPage < maxVisiblePages - 1 then
startPage = Math.max(1, endPage - maxVisiblePages + 1). -/
def startPageOf (currentPage totalPages : Nat) : Nat :=
  if endPageOf currentPage totalPages - startPageRaw currentPage < maxVisiblePages - 1 then
    max 1 (endPageOf currentPage totalPages - maxVisiblePages + 1)
  else startPageRaw currentPage

/-- A numbered PaginationLink with isActive = (currentPage === i). -/
def pageLink (currentPage i : Nat) : PageItem := .page i (currentPage == i)

/-- The loop for (let i = lo; i <= hi; i++) pushing numbered links. -/
def pagesLoop (currentPage lo hi : Nat) : List PageItem :=
  (List.range' lo (hi + 1 - lo)).map (pageLink currentPage)

/-- The first-page link and leading ellipsis, pushed when startPage > 1
(the link carries no isActive prop, so it is inactive). -/
def firstPagePart (currentPage totalPages : Nat) : List PageItem :=
  if 1 < startPageOf currentPage totalPages then
    [PageItem.page 1 false] ++
      (if 2 < startPageOf currentPage totalPages then [PageItem.ellipsis] else [])
  else []

/-- The trailing ellipsis and last-page link, pushed when endPage < totalPages
(the link carries no isActive prop, so it is inactive). -/
def lastPagePart (currentPage totalPages : Nat) : List PageItem :=
  if endPageOf currentPage totalPages < totalPages then
    (if endPageOf currentPage totalPages < totalPages - 1 then [PageItem.ellipsis] else []) ++
      [PageItem.page totalPages false]
  else []

/-- renderPagination of AdminPanel.tsx, as the list of pagination items it
returns: Previous, then either all pages (totalPages <= maxVisiblePages) or
first page / ellipsis / the windowed loop / ellipsis / last page, then
Next. -/
def renderPagination (currentPage totalPages : Nat) : List PageItem :=
  [PageItem.prev] ++
    (if totalPages ≤ maxVisiblePages then
      pagesLoop currentPage 1 totalPages
    else
      firstPagePart currentPage totalPages ++
        pagesLoop currentPage (startPageOf currentPage totalPages)
          (endPageOf currentPage totalPages) ++
        lastPagePart currentPage totalPages) ++
  [PageItem.next]

/-- The page numbers of the consecutive numbered window produced by the main
loop of renderPagination (all pages when totalPages <= maxVisiblePages). -/
def windowPages (currentPage totalPages : Nat) : List Nat :=
  if totalPages ≤ maxVisiblePages then
    List.range' 1 totalPages
  else
    List.range' (startPageOf currentPage totalPages)
      (endPageOf currentPage totalPages + 1 - startPageOf currentPage totalPages)

/-! ## Upload form

Embedded from src/frontend/src/components/FileUpload.tsx. -/

def ACCEPTED_FILE_TYPES : List String :=
  ["application/pdf",
   "application/vnd.openxmlformats-officedocument.wordprocessingml.document",
   "text/plain",
   "application/x-ipynb+json"]

def MAX_FILE_SIZE : Nat := 10 * 1024 * 1024

/-- The MIME type and byte size of a candidate file. -/
structure FileData where
  type : String
  size : Nat
deriving DecidableEq, Repr

inductive UploadMsg where
  | invalidType
  | tooLarge
deriving DecidableEq, Repr

/-- validateAndSetFile: reject (toast, keep the current selection) when the
MIME type is not accepted or the size exceeds MAX_FILE_SIZE; otherwise
setFile(file).  Returns the selected file afterwards and the surfaced
error, if any. -/
def validateAndSetFile (current : Option FileData) (f : FileData) :
    Option FileData × Option UploadMsg :=
  if !(ACCEPTED_FILE_TYPES.contains f.type) then (current, some .invalidType)
  else if MAX_FILE_SIZE < f.size then (current, some .tooLarge)
  else (some f, none)

/-- JavaScript String.prototype.trim: drop leading and trailing whitespace
(modelled on the character list so it evaluates in the kernel). -/
def jsTrim (s : String) : String :=
  String.mk ((s.data.dropWhile Char.isWhitespace).reverse.dropWhile Char.isWhitespace).reverse

/-- uploadFile: returns immediately when no file is selected or when the
trimmed title is empty; otherwise the upload proceeds.  The returned Bool is
whether the upload request is started. -/
def uploadFile (file : Option FileData) (title : String) : Bool :=
  match file with
  | none => false
  | some _ => !(jsTrim title == "")

/-! ## Sample data used by witnesses and counterexamples -/

def sampleUser : User := ⟨1, "anna@example.com", "hpw", true, false⟩

def sampleAdmin : User := ⟨2, "root@example.com", "hadm", true, true⟩

def sampleStore : Store :=
  ⟨[sampleUser, sampleAdmin], [⟨"t1", 1, 100, false⟩, ⟨"t2", 2, 100, false⟩]⟩

def sampleClient : ClientState := ⟨some "t1", some sampleUser, true, false, some "t1"⟩

/-! ## Helper lemmas -/

theorem revokeOne_token (t : String) (r : TokenRecord) : (revokeOne t r).token = r.token := by
  unfold revokeOne
  split <;> rfl

theorem revokeOne_idem (t : String) (r : TokenRecord) :
    revokeOne t (revokeOne t r) = revokeOne t r := by
  unfold revokeOne
  by_cases h : r.token = t <;> simp [h]

theorem deacOne_id (uid : Nat) (u : User) : (deacOne uid u).id = u.id := by
  unfold deacOne
  split <;> rfl

theorem findToken_revoke (s : Store) (t t' : String) :
    findToken (revoke s t) t' = (findToken s t').map (revokeOne t) := by
  unfold findToken revoke
  simp only
  induction s.tokens with
  | nil => rfl
  | cons a l ih =>
    simp only [List.map_cons, List.find?_cons]
    have htok : (revokeOne t a).token = a.token := revokeOne_token t a
    by_cases h : a.token = t'
    · simp [htok, h]
    · simp [htok, h, ih]

theorem findUserById_deactivate (s : Store) (uid v : Nat) :
    findUserById (deactivate s uid) v = (findUserById s v).map (deacOne uid) := by
  unfold findUserById deactivate
  simp only
  induction s.users with
  | nil => rfl
  | cons a l ih =>
    simp only [List.map_cons, List.find?_cons]
    have hid : (deacOne uid a).id = a.id := deacOne_id uid a
    by_cases h : a.id = v
    · simp [hid, h]
    · simp [hid, h, ih]

theorem findToken_deactivate (s : Store) (uid : Nat) (t : String) :
    findToken (deactivate s uid) t = findToken s t := rfl

theorem findUserById_revoke (s : Store) (t : String) (v : Nat) :
    findUserById (revoke s t) v = findUserById s v := rfl

theorem validate_ok_iff (s : Store) (t : String) (now : Nat) (u : User) :
    validate s t now = .ok u ↔
      ∃ r, findToken s t = some r ∧ now < r.expiry ∧ r.revoked = false ∧
        findUserById s r.userId = some u ∧ u.is_active = true := by
  constructor
  · intro h
    unfold validate at h
    cases hf : findToken s t with
    | none => rw [hf] at h; cases h
    | some r =>
      rw [hf] at h
      dsimp only at h
      by_cases hexp : r.expiry ≤ now
      · rw [if_pos hexp] at h; cases h
      · rw [if_neg hexp] at h
        by_cases hrev : r.revoked = true
        · rw [if_pos hrev] at h; cases h
        · rw [if_neg hrev] at h
          cases hu : findUserById s r.userId with
          | none => rw [hu] at h; cases h
          | some v =>
            rw [hu] at h
            dsimp only at h
            by_cases hact : v.is_active = true
            · rw [if_pos hact] at h
              injection h with e
              subst e
              exact ⟨r, rfl, Nat.lt_of_not_le hexp, Bool.eq_false_iff.mpr hrev, hu, hact⟩
            · rw [if_neg hact] at h; cases h
  · rintro ⟨r, hf, hexp, hrev, hu, hact⟩
    unfold validate
    rw [hf]
    dsimp only
    rw [if_neg (Nat.not_le.mpr hexp), hrev, hu]
    simp [hact]

theorem validate_error_cases (s : Store) (t : String) (now : Nat) :
    (findToken s t = none → validate s t now = .error .UnknownToken) ∧
    (∀ r, findToken s t = some r → r.expiry ≤ now →
      validate s t now = .error .ExpiredToken) ∧
    (∀ r, findToken s t = some r → now < r.expiry → r.revoked = true →
      validate s t now = .error .RevokedToken) ∧
    (∀ r u, findToken s t = some r → now < r.expiry → r.revoked = false →
      findUserById s r.userId = some u → u.is_active = false →
      validate s t now = .error .InactiveUser) := by
  refine ⟨?_, ?_, ?_, ?_⟩
  · intro h
    unfold validate
    rw [h]
  · intro r hf hexp
    unfold validate
    rw [hf]
    dsimp only
    rw [if_pos hexp]
  · intro r hf hexp hrev
    unfold validate
    rw [hf]
    dsimp only
    rw [if_neg (Nat.not_le.mpr hexp), hrev]
    simp
  · intro r u hf hexp hrev hu hact
    unfold validate
    rw [hf]
    dsimp only
    rw [if_neg (Nat.not_le.mpr hexp), hrev, hu]
    simp [hact]

/-! ## Claim theorems -/

/-- C1: validate returns the owning User only if the token is unexpired,
unrevoked, and its subject user is active; otherwise it returns the matching
error (ExpiredToken past expiry, RevokedToken when explicitly invalidated,
UnknownToken when not found, InactiveUser when the owner's active flag is
false); and once a user is deactivated, every previously issued,
otherwise-unexpired token of that user fails validation with InactiveUser. -/
theorem c1_validate_invariant (s : Store) (t : String) (now : Nat) :
    (∀ u, validate s t now = .ok u →
      ∃ r, findToken s t = some r ∧ now < r.expiry ∧ r.revoked = false ∧
        findUserById s r.userId = some u ∧ u.is_active = true) ∧
    (findToken s t = none → validate s t now = .error .UnknownToken) ∧
    (∀ r, findToken s t = some r → r.expiry ≤ now →
      validate s t now = .error .ExpiredToken) ∧
    (∀ r, findToken s t = some r → now < r.expiry → r.revoked = true →
      validate s t now = .error .RevokedToken) ∧
    (∀ r u, findToken s t = some r → now < r.expiry → r.revoked = false →
      findUserById s r.userId = some u → u.is_active = false →
      validate s t now = .error .InactiveUser) ∧
    (∀ u, validate s t now = .ok u →
      validate (deactivate s u.id) t now = .error .InactiveUser) := by
  refine ⟨fun u h => (validate_ok_iff s t now u).mp h,
    (validate_error_cases s t now).1,
    (validate_error_cases s t now).2.1,
    (validate_error_cases s t now).2.2.1,
    (validate_error_cases s t now).2.2.2,
    ?_⟩
  intro u h
  rcases (validate_ok_iff s t now u).mp h with ⟨r, hf, hexp, hrev, hu, _⟩
  have hf' : findToken (deactivate s u.id) t = some r := by
    rw [findToken_deactivate, hf]
  have hu' : findUserById (deactivate s u.id) r.userId = some (deacOne u.id u) := by
    rw [findUserById_deactivate, hu]
    rfl
  have hdeac : (deacOne u.id u).is_active = false := by
    unfold deacOne
    simp
  exact (validate_error_cases (deactivate s u.id) t now).2.2.2 r (deacOne u.id u)
    hf' hexp hrev hu' hdeac

/-- C1 witness: concrete store exercising the UnknownToken, ExpiredToken,
RevokedToken and deactivation cases. -/
theorem c1_validate_invariant_witness :
    validate sampleStore "zz" 50 = .error .UnknownToken ∧
    validate sampleStore "t1" 100 = .error .ExpiredToken ∧
    validate (revoke sampleStore "t1") "t1" 50 = .error .RevokedToken ∧
    validate (deactivate sampleStore sampleUser.id) "t1" 50 = .error .InactiveUser := by
  refine ⟨(c1_validate_invariant sampleStore "zz" 50).2.1 rfl,
    (c1_validate_invariant sampleStore "t1" 100).2.2.1 ⟨"t1", 1, 100, false⟩ rfl (by decide),
    (c1_validate_invariant (revoke sampleStore "t1") "t1" 50).2.2.2.1
      ⟨"t1", 1, 100, true⟩ rfl (by decide) rfl,
    (c1_validate_invariant sampleStore "t1" 50).2.2.2.2.2 sampleUser rfl⟩

/-- C2: for an (email, password) pair matching a stored active user, login
issues a token that an immediate validate accepts, resolving to that same
user.  The store is assumed consistent (the user record is the one its id
resolves to), the generated token fresh, and the expiry window positive. -/
theorem c2_login_issues_validatable_token
    (hash : String → String) (s : Store) (email pw tok : String)
    (now window : Nat) (u : User)
    (hfind : s.users.find? (fun v => v.email = email && v.hashed_password = hash pw) = some u)
    (hact : u.is_active = true)
    (hid : findUserById s u.id = some u)
    (hfresh : findToken s tok = none)
    (hwin : 0 < window) :
    loginServer hash s email pw now window tok = .ok (issue s u now window tok) ∧
    validate (issue s u now window tok).1 tok now = .ok u := by
  constructor
  · unfold loginServer
    rw [hfind]
  · rw [validate_ok_iff]
    refine ⟨⟨tok, u.id, now + window, false⟩, ?_, show now < now + window by omega, rfl, hid, hact⟩
    have hfresh' : List.find? (fun r => r.token = tok) s.tokens = none := hfresh
    show List.find? (fun r => r.token = tok) (s.tokens ++ [⟨tok, u.id, now + window, false⟩]) =
      some ⟨tok, u.id, now + window, false⟩
    rw [List.find?_append, hfresh', Option.none_or]
    simp [List.find?]

/-- C2 witness: logging in as the sample active user issues the fresh token
t3, which validates back to that user. -/
theorem c2_login_issues_validatable_token_witness :
    loginServer (fun _ => "hpw") sampleStore "anna@example.com" "pw" 40 60 "t3" =
      .ok (issue sampleStore sampleUser 40 60 "t3") ∧
    validate (issue sampleStore sampleUser 40 60 "t3").1 "t3" 40 = .ok sampleUser :=
  c2_login_issues_validatable_token (fun _ => "hpw") sampleStore "anna@example.com"
    "pw" "t3" 40 60 sampleUser rfl rfl rfl rfl (by decide)

/-- C8: revoke is idempotent — revoking twice gives the very state of
revoking once; revoking a token absent from the store is a no-op returning
the state unchanged (never an error, as revoke is total); and after a revoke
the token can never validate successfully. -/
theorem c8_revoke_idempotent (s : Store) (t : String) :
    revoke (revoke s t) t = revoke s t ∧
    (findToken s t = none → revoke s t = s) ∧
    (∀ (now : Nat) (u : User), validate (revoke s t) t now ≠ .ok u) := by
  refine ⟨?_, ?_, ?_⟩
  · have h : (s.tokens.map (revokeOne t)).map (revokeOne t) = s.tokens.map (revokeOne t) := by
      rw [List.map_map]
      apply List.map_congr_left
      intro a _
      exact revokeOne_idem t a
    unfold revoke
    dsimp only
    rw [h]
  · intro hn
    have hall := List.find?_eq_none.mp hn
    have h : s.tokens.map (revokeOne t) = s.tokens :=
      calc s.tokens.map (revokeOne t) = s.tokens.map id := by
            apply List.map_congr_left
            intro a ha
            have hne : ¬ (a.token = t) := by simpa using hall a ha
            unfold revokeOne
            rw [if_neg hne]
            rfl
        _ = s.tokens := List.map_id _
    unfold revoke
    rw [h]
  · intro now u h
    rw [validate_ok_iff] at h
    rcases h with ⟨r, hf, _, hrev, _, _⟩
    rw [findToken_revoke] at hf
    cases hf0 : findToken s t with
    | none => rw [hf0] at hf; cases hf
    | some r0 =>
      rw [hf0] at hf
      injection hf with e
      subst e
      have htok : r0.token = t := by simpa using List.find?_some hf0
      have hrv : (revokeOne t r0).revoked = true := by
        unfold revokeOne
        rw [if_pos htok]
      rw [hrv] at hrev
      cases hrev

/-- C8 witness: the sample store with its token t1 revoked twice, an unknown
token zz revoked as a no-op, and the revoked t1 never validating. -/
theorem c8_revoke_idempotent_witness :
    revoke (revoke sampleStore "t1") "t1" = revoke sampleStore "t1" ∧
    findToken sampleStore "zz" = none ∧
    revoke sampleStore "zz" = sampleStore ∧
    validate (revoke sampleStore "t1") "t1" 50 ≠ .ok sampleUser :=
  ⟨(c8_revoke_idempotent sampleStore "t1").1, rfl,
    (c8_revoke_idempotent sampleStore "zz").2.1 rfl,
    (c8_revoke_idempotent sampleStore "t1").2.2 50 sampleUser⟩

/-- C3 counterexample: in the code, logout only clears the client state and
issues no server request, so after a login/logout sequence the old token t1,
if presented again, still validates successfully on the server — the claim
that every post-logout use of the old token is rejected is false. -/
theorem c3_logout_counterexample :
    (systemLogout (sampleStore, sampleClient)).2.token = none ∧
    (systemLogout (sampleStore, sampleClient)).2.localToken = none ∧
    validate (systemLogout (sampleStore, sampleClient)).1 "t1" 50 = .ok sampleUser :=
  ⟨rfl, rfl, rfl⟩

/-- C3 amended: logout clears the client's stored token and user projection,
so subsequent requests from this client attach no Authorization header and
cannot present the old token; but logout performs no server-side revocation,
so the server store — and hence the validation outcome of the old token — is
exactly what it was before logout. -/
theorem c3_logout_local_only (srv : Store) (cs : ClientState) :
    systemLogout (srv, cs) = (srv, storeLogout cs) ∧
    (storeLogout cs).token = none ∧
    (storeLogout cs).user = none ∧
    (storeLogout cs).localToken = none ∧
    attachAuthHeader (storeLogout cs).localToken = none ∧
    (∀ (t : String) (now : Nat),
      validate (systemLogout (srv, cs)).1 t now = validate srv t now) :=
  ⟨rfl, rfl, rfl, rfl, rfl, fun _ _ => rfl⟩

/-- C4 counterexample: when the token request succeeds but the follow-up
current-user fetch fails, authStore login still returns true, yet the stored
token is not the newly issued access token (checkAuth cleared it) — so
"returns true implies the new token and user are stored" is false. -/
theorem c4_login_counterexample :
    (storeLogin sampleClient (some "tNew") none).2 = true ∧
    (storeLogin sampleClient (some "tNew") none).1.token ≠ some "tNew" ∧
    (storeLogin sampleClient (some "tNew") none).1.user = none := by
  refine ⟨rfl, ?_, rfl⟩
  intro h
  exact Option.noConfusion h

/-- C4 amended: login returns false exactly when the token request fails, and
then the stored state is unchanged; when the token request succeeds it
returns true, and the stored token and user are the new access token and the
fetched user if the user fetch succeeds, but are cleared (not the new token)
if the user fetch fails. -/
theorem c4_login_cases (cs : ClientState) (tok : String) (u : User)
    (fetch : Option User) :
    storeLogin cs none fetch = (cs, false) ∧
    (storeLogin cs (some tok) (some u)).2 = true ∧
    (storeLogin cs (some tok) (some u)).1.token = some tok ∧
    (storeLogin cs (some tok) (some u)).1.localToken = some tok ∧
    (storeLogin cs (some tok) (some u)).1.user = some u ∧
    (storeLogin cs (some tok) none).2 = true ∧
    (storeLogin cs (some tok) none).1.token = none ∧
    (storeLogin cs (some tok) none).1.user = none :=
  ⟨rfl, rfl, rfl, rfl, rfl, rfl, rfl, rfl⟩

/-- C5: an authenticated session whose resolved user is not an admin is
rejected by the admin gate with the Forbidden outcome (client side: redirect
to the dashboard), never with the Unauthorized outcome (client side: redirect
to login); the Unauthorized outcome arises only when authentication itself
fails.  Covers the spec-modelled requireAdmin and both frontend admin
gates. -/
theorem c5_admin_gate (s : Store) (t : String) (now : Nat) (u : User)
    (authToken isAdminVal : Option String) (isAuthenticated : Bool)
    (user : Option User) :
    (requireAuth s t now = .ok u → u.is_admin = false →
      requireAdmin s t now = .error .Forbidden) ∧
    (requireAdmin s t now = .error .Unauthorized →
      requireAuth s t now = .error .Unauthorized) ∧
    (authToken.isSome = true → (isAdminVal == some "true") = false →
      adminRoute authToken isAdminVal = .redirectDashboard) ∧
    (adminRoute authToken isAdminVal = .redirectLogin → authToken = none) ∧
    (isAuthenticated = true →
      (match user with | some v => v.is_admin | none => false) = false →
      protectedRouteComponent false isAuthenticated user true = .redirectDashboard) ∧
    (protectedRouteComponent false isAuthenticated user true = .redirectLogin →
      isAuthenticated = false) := by
  refine ⟨?_, ?_, ?_, ?_, ?_, ?_⟩
  · intro h hadm
    unfold requireAdmin
    rw [h]
    dsimp only
    rw [hadm]
    rfl
  · intro h
    unfold requireAdmin at h
    cases hra : requireAuth s t now with
    | ok v =>
      rw [hra] at h
      dsimp only at h
      by_cases hadm : v.is_admin = true
      · rw [if_pos hadm] at h; cases h
      · rw [if_neg hadm] at h; cases h
    | error e =>
      rw [hra] at h
      dsimp only at h
      exact h
  · intro h1 h2
    unfold adminRoute
    rw [h1, h2]
    rfl
  · intro h
    cases hat : authToken with
    | none => rfl
    | some a =>
      unfold adminRoute at h
      rw [hat] at h
      dsimp only at h
      by_cases hadm : (isAdminVal == some "true") = true
      · rw [hadm] at h; cases h
      · rw [Bool.eq_false_iff.mpr hadm] at h; cases h
  · intro h1 h2
    unfold protectedRouteComponent
    rw [h1, h2]
    rfl
  · intro h
    cases hauth : isAuthenticated with
    | false => rfl
    | true =>
      rw [hauth] at h
      cases user with
      | none => simp [protectedRouteComponent] at h
      | some v =>
        cases hv : v.is_admin with
        | false => simp [protectedRouteComponent, hv] at h
        | true => simp [protectedRouteComponent, hv] at h

/-- C5 witness: the sample non-admin user holds a valid session, and every
gate answers Forbidden-style (dashboard redirect), not Unauthorized. -/
theorem c5_admin_gate_witness :
    requireAdmin sampleStore "t1" 50 = .error .Forbidden ∧
    adminRoute (some "t1") none = .redirectDashboard ∧
    protectedRouteComponent false true (some sampleUser) true = .redirectDashboard :=
  ⟨(c5_admin_gate sampleStore "t1" 50 sampleUser (some "t1") none true
      (some sampleUser)).1 rfl rfl,
    (c5_admin_gate sampleStore "t1" 50 sampleUser (some "t1") none true
      (some sampleUser)).2.2.1 rfl rfl,
    (c5_admin_gate sampleStore "t1" 50 sampleUser (some "t1") none true
      (some sampleUser)).2.2.2.2.1 rfl rfl⟩

/-- C6: any rejected request carrying a 401 Unauthorized response — whatever
the endpoint or sub-reason — makes the response interceptor clear the stored
auth token and redirect to the login page. -/
theorem c6_unauthorized_uniform (localToken : Option String) :
    responseErrorInterceptor localToken (.withResponse 401) = (none, true) ∧
    attachAuthHeader (responseErrorInterceptor localToken (.withResponse 401)).1 = none :=
  ⟨rfl, rfl⟩

/-- C7: logout clears the stored token, the user projection, and the
localStorage copy unconditionally — from any prior state — and performs no
server round trip (the server store is untouched by the logout step). -/
theorem c7_logout_clears (srv : Store) (cs : ClientState) :
    (storeLogout cs).token = none ∧
    (storeLogout cs).user = none ∧
    (storeLogout cs).localToken = none ∧
    (storeLogout cs).isAuthenticated = false ∧
    systemLogout (srv, cs) = (srv, storeLogout cs) :=
  ⟨rfl, rfl, rfl, rfl, rfl⟩

theorem pagination_bounds (cp tp : Nat) (h1 : 1 ≤ cp) (h2 : cp ≤ tp)
    (h3 : maxVisiblePages < tp) :
    1 ≤ startPageOf cp tp ∧ endPageOf cp tp ≤ tp ∧
    endPageOf cp tp = startPageOf cp tp + 4 ∧
    startPageOf cp tp ≤ cp ∧ cp ≤ endPageOf cp tp := by
  have h3' : 5 < tp := h3
  unfold startPageOf endPageOf startPageRaw maxVisiblePages
  split <;> omega

/-- C9: for every currentPage within 1..totalPages, the numbered window of
renderPagination contains currentPage; it is exactly the pages 1..totalPages
when totalPages is at most 5, and exactly 5 consecutive pages clamped to
1..totalPages — with the first/last links and ellipses rendered outside the
window — when totalPages exceeds 5. -/
theorem c9_pagination_window (cp tp : Nat) (h1 : 1 ≤ cp) (h2 : cp ≤ tp) :
    cp ∈ windowPages cp tp ∧
    (tp ≤ maxVisiblePages →
      windowPages cp tp = List.range' 1 tp ∧
      (windowPages cp tp).length = tp ∧
      renderPagination cp tp =
        [PageItem.prev] ++ (windowPages cp tp).map (pageLink cp) ++ [PageItem.next]) ∧
    (maxVisiblePages < tp →
      (windowPages cp tp).length = maxVisiblePages ∧
      windowPages cp tp = List.range' (startPageOf cp tp) 5 ∧
      1 ≤ startPageOf cp tp ∧ endPageOf cp tp ≤ tp ∧
      startPageOf cp tp ≤ cp ∧ cp ≤ endPageOf cp tp ∧
      renderPagination cp tp =
        [PageItem.prev] ++ (firstPagePart cp tp ++
          (windowPages cp tp).map (pageLink cp) ++ lastPagePart cp tp) ++
          [PageItem.next]) := by
  refine ⟨?_, ?_, ?_⟩
  · by_cases htp : tp ≤ maxVisiblePages
    · unfold windowPages
      rw [if_pos htp, List.mem_range'_1]
      omega
    · obtain ⟨hs1, hetp, hes, hscp, hcpe⟩ :=
        pagination_bounds cp tp h1 h2 (Nat.not_le.mp htp)
      unfold windowPages
      rw [if_neg htp, List.mem_range'_1]
      omega
  · intro htp
    have hw : windowPages cp tp = List.range' 1 tp := by
      unfold windowPages
      rw [if_pos htp]
    refine ⟨hw, ?_, ?_⟩
    · rw [hw, List.length_range']
    · have hcancel : tp + 1 - 1 = tp := by omega
      unfold renderPagination pagesLoop
      rw [if_pos htp, hw, hcancel]
  · intro htp
    obtain ⟨hs1, hetp, hes, hscp, hcpe⟩ := pagination_bounds cp tp h1 h2 htp
    have h5 : endPageOf cp tp + 1 - startPageOf cp tp = 5 := by omega
    have hw : windowPages cp tp = List.range' (startPageOf cp tp) 5 := by
      unfold windowPages
      rw [if_neg (Nat.not_le.mpr htp), h5]
    refine ⟨?_, hw, hs1, hetp, hscp, hcpe, ?_⟩
    · rw [hw, List.length_range']
      rfl
    · unfold renderPagination pagesLoop
      rw [if_neg (Nat.not_le.mpr htp), hw, h5]

/-- C9 witness: with 20 total pages and page 7 current, the window is the 5
consecutive pages around 7 and renderPagination wraps it in the outer parts;
with 4 total pages all 4 pages are shown. -/
theorem c9_pagination_window_witness :
    7 ∈ windowPages 7 20 ∧
    (windowPages 7 20).length = maxVisiblePages ∧
    windowPages 7 20 = List.range' (startPageOf 7 20) 5 ∧
    renderPagination 7 20 =
      [PageItem.prev] ++ (firstPagePart 7 20 ++
        (windowPages 7 20).map (pageLink 7) ++ lastPagePart 7 20) ++ [PageItem.next] ∧
    (windowPages 3 4).length = 4 := by
  have h := c9_pagination_window 7 20 (by decide) (by decide)
  have hs := c9_pagination_window 3 4 (by decide) (by decide)
  exact ⟨h.1, (h.2.2 (by decide)).1, (h.2.2 (by decide)).2.1,
    (h.2.2 (by decide)).2.2.2.2.2.2, (hs.2.1 (by decide)).2.1⟩

/-- C10: the upload form selects a file only when its MIME type is accepted
and its size is at most 10 MiB; a violating file leaves the current selection
unchanged and surfaces an error; and uploadFile starts no request when no
file is selected or the trimmed title is empty. -/
theorem c10_upload_validation (current : Option FileData) (f : FileData)
    (title : String) :
    ((f.type ∉ ACCEPTED_FILE_TYPES ∨ MAX_FILE_SIZE < f.size) →
      (validateAndSetFile current f).1 = current ∧
      (validateAndSetFile current f).2.isSome = true) ∧
    (f.type ∈ ACCEPTED_FILE_TYPES → f.size ≤ MAX_FILE_SIZE →
      validateAndSetFile current f = (some f, none)) ∧
    uploadFile none title = false ∧
    (jsTrim title = "" → uploadFile (some f) title = false) := by
  refine ⟨?_, ?_, rfl, ?_⟩
  · intro h
    by_cases hc : f.type ∈ ACCEPTED_FILE_TYPES
    · have hsz : MAX_FILE_SIZE < f.size := by
        rcases h with h | h
        · exact absurd hc h
        · exact h
      simp [validateAndSetFile, hc, hsz]
    · simp [validateAndSetFile, hc]
  · intro hmem hsz
    simp [validateAndSetFile, hmem, Nat.not_lt.mpr hsz]
  · intro h
    simp [uploadFile, h]

/-- C10 witness: a zip file is rejected without replacing the selection, an
oversized text file likewise, a small PDF is accepted, and uploadFile is a
no-op with no file or a whitespace title. -/
theorem c10_upload_validation_witness :
    (validateAndSetFile none ⟨"application/zip", 3⟩).1 = none ∧
    (validateAndSetFile none ⟨"application/zip", 3⟩).2.isSome = true ∧
    (validateAndSetFile (some ⟨"text/plain", 3⟩) ⟨"text/plain", 10485761⟩).1 =
      some ⟨"text/plain", 3⟩ ∧
    validateAndSetFile (some ⟨"text/plain", 3⟩) ⟨"application/pdf", 7⟩ =
      (some ⟨"application/pdf", 7⟩, none) ∧
    uploadFile none "Essay" = false ∧
    uploadFile (some ⟨"application/pdf", 7⟩) "  " = false := by
  have h1 := c10_upload_validation none ⟨"application/zip", 3⟩ "Essay"
  have h2 := c10_upload_validation (some ⟨"text/plain", 3⟩) ⟨"text/plain", 10485761⟩ "Essay"
  have h3 := c10_upload_validation (some ⟨"text/plain", 3⟩) ⟨"application/pdf", 7⟩ "Essay"
  have h4 := c10_upload_validation none ⟨"application/pdf", 7⟩ "  "
  exact ⟨(h1.1 (Or.inl (by decide))).1, (h1.1 (Or.inl (by decide))).2,
    (h2.1 (Or.inr (by decide))).1,
    h3.2.1 (by decide) (by decide),
    h1.2.2.1,
    h4.2.2.2 (by decide)⟩

end OmniWhey
